import Mathlib

set_option linter.unusedVariables false

/-
Shallow embedding of the command-tree executor in src/cmd.c (mini-shell).
Pure transcription of shell_cd, shell_exit, parse_simple (including the
code run inside the forked child), run_in_parallel, run_on_pipe and
parse_command.  OS-level effects (open, dup2, fork, waitpid, execvp,
chdir, getcwd, setenv) are modelled by an explicit oracle `World`; file
opens, forks, environment mutations and the chdir call are additionally
recorded in explicit traces so that theorems can speak about them.
-/

namespace MiniShell

/-- Modelled from the spec: the reserved sentinel exit status meaning
"terminate the whole shell" (spec sections 3 and 4.4).  Its numeric
definition lives in cmd.h, which is not under src/; the executor only
produces it and compares statuses against it, so any fixed nonzero value
is a faithful model. -/
def SHELL_EXIT : Int := -100

/-- Modelled from the spec: append-mode flag for the stdout redirection
target.  cmd.h (not under src/) defines the io_flags encoding; the spec
says the truncate/append flags are carried "independently for
stdout/stderr", so the model gives each stream its own bit. -/
def IO_OUT_APPEND : Nat := 1

/-- Modelled from the spec: append-mode flag for the stderr redirection
target (see IO_OUT_APPEND). -/
def IO_ERR_APPEND : Nat := 2

/-- A simple command (struct simple_command_t): resolved verb, resolved
parameter words in order, optional resolved stdin/stdout/stderr
redirection targets, and the io_flags mode field.  Token resolution
(get_word) is the out-of-scope resolver of spec section 6, so words are
carried as already-resolved strings. -/
structure SimpleCmd where
  verb : String
  params : List String
  inp : Option String
  out : Option String
  err : Option String
  io_flags : Nat
deriving DecidableEq

/-- The stdout target's own append flag under the spec's independent-flag
reading of io_flags. -/
def outAppend (s : SimpleCmd) : Bool := s.io_flags &&& IO_OUT_APPEND != 0

/-- The stderr target's own append flag under the spec's independent-flag
reading of io_flags. -/
def errAppend (s : SimpleCmd) : Bool := s.io_flags &&& IO_ERR_APPEND != 0

/-- Operator tag of a composite command node (enum op in cmd.h).  The C
switch in parse_command has a default arm, so a tag that is none of the
known operator kinds is representable as `unknown n`. -/
inductive OpTag where
  | sequential
  | parallel
  | condNZero
  | condZero
  | pipe
  | unknown (tag : Nat)
deriving DecidableEq

/-- A command tree node (struct command_t).  `null` stands for a NULL
command_t pointer, `simple` for an OP_NONE node carrying its (possibly
NULL) simple_command_t, and `comp` for an operator node with its two
children. -/
inductive Command where
  | null
  | simple (s : Option SimpleCmd)
  | comp (op : OpTag) (cmd1 cmd2 : Command)
deriving DecidableEq

/-- Oracle for the two fork calls and the two waitpid calls of
run_in_parallel, one Boolean per call site. -/
structure ParOracle where
  forkLeftOk : Bool
  forkRightOk : Bool
  waitLeftOk : Bool
  waitRightOk : Bool
deriving DecidableEq

/-- Oracle for the pipe call, the two fork calls and the two waitpid
calls of run_on_pipe, one Boolean per call site. -/
structure PipeOracle where
  pipeOk : Bool
  forkLeftOk : Bool
  forkRightOk : Bool
  waitLeftOk : Bool
  waitRightOk : Bool
deriving DecidableEq

/-- Oracle for every OS interaction of the executor.  Functions answer
by path (or name/value), mirroring that the same system call at the same
argument behaves the same way within one evaluation. -/
structure World where
  openOk : String → Bool
  dup2Ok : Bool
  forkOk : Bool
  waitOk : Bool
  execOk : String → Bool
  execStatus : String → Int
  setenvOk : String → String → Bool
  chdirDest : String → Option String
  getcwdOk : Bool
  cwd : String
  escapedStatus : Int
  par : ParOracle
  po : PipeOracle

/-- Mode of a file open performed by the executor. -/
inductive OpenMode where
  | readOnly
  | trunc
  | append
deriving DecidableEq

/-- Outcome of the code run inside the forked child of parse_simple:
either the child executed a C `return` (falling back into its caller,
parse_command, inside the child process) or it terminated via `exit`
(or via successful execvp, whose eventual program exit it becomes). -/
inductive ChildRes where
  | returned (r : Int)
  | exited (code : Int)
deriving DecidableEq

/-- Trace of the forked child's redirection work: every file open it
performed (path and mode, in order) and whether stderr was aliased to
the already-open stdout descriptor instead of being reopened, plus the
program name passed to execvp when reached. -/
structure ChildTrace where
  opens : List (String × OpenMode)
  errAliased : Bool
  execCalled : Option String
deriving DecidableEq

/-- Trace of one parse_simple evaluation in the calling process: files
opened with O_TRUNC by the cd branch (in order), whether shell_cd was
called and the working directory it left behind, setenv calls made,
number of fork calls, and the forked child's outcome and trace. -/
structure Trace where
  truncOpens : List String
  cdCalled : Bool
  cdResultCwd : Option String
  envSets : List (String × String)
  forks : Nat
  child : Option (ChildRes × ChildTrace)
deriving DecidableEq

def emptyTrace : Trace := ⟨[], false, none, [], 0, none⟩

/-- Successive calls of strtok(word, "=") in C: the maximal nonempty
runs of non-'=' characters, in order (leading, trailing and repeated
'=' delimiters are skipped). -/
def tokenizeEq (cs : List Char) (cur : List Char) : List String :=
  match cs with
  | [] => if cur.isEmpty then [] else [String.mk cur.reverse]
  | c :: rest =>
    if c = '=' then
      if cur.isEmpty then tokenizeEq rest []
      else String.mk cur.reverse :: tokenizeEq rest []
    else tokenizeEq rest (c :: cur)

def strtokens (word : String) : List String := tokenizeEq word.toList []

/-- strchr(word, '=') != NULL. -/
def containsEq (word : String) : Bool := word.toList.contains '='

/-- A path not beginning with '/' (used only to state the cd claim's
"relative path" hypothesis). -/
def isRelative (p : String) : Bool := !(p.toList.head? == some '/')

/-- shell_cd (src/cmd.c lines 23-55): NULL argument is a no-op success;
otherwise chdir(word), and on failure getcwd + chdir(cwd ++ "/" ++ word);
returns (success flag, resulting working directory). -/
def shell_cd (w : World) (dir : Option String) : Bool × String :=
  match dir with
  | none => (true, w.cwd)
  | some word =>
    match w.chdirDest word with
    | some d => (true, d)
    | none =>
      if w.getcwdOk then
        match w.chdirDest (w.cwd ++ "/" ++ word) with
        | some d => (true, d)
        | none => (false, w.cwd)
      else (false, w.cwd)

/-- shell_exit (src/cmd.c lines 60-63). -/
def shell_exit : Int := SHELL_EXIT

/-- The cd branch of parse_simple (src/cmd.c lines 80-118): open each
declared redirection target in order (in, out, err) with
O_WRONLY|O_CREAT|O_TRUNC and close it; a failed open aborts the rest.
Returns (files opened-and-truncated in order, overall success). -/
def cdOpenTargets (w : World) (targets : List (Option String)) : List String × Bool :=
  match targets with
  | [] => ([], true)
  | none :: rest => cdOpenTargets w rest
  | some f :: rest =>
    if w.openOk f then
      let r := cdOpenTargets w rest
      (f :: r.1, r.2)
    else ([], false)

/-- execvp step of the forked child (src/cmd.c lines 243-253): on
success the process becomes the external program and eventually exits
with that program's status; on failure the child prints and calls
exit(r) with r = -1, the execvp return value. -/
def childExec (w : World) (word : String) (t : ChildTrace) : ChildRes × ChildTrace :=
  if w.execOk word then
    (ChildRes.exited (w.execStatus word), { t with execCalled := some word })
  else
    (ChildRes.exited (-1), { t with execCalled := some word })

/-- stderr step of the forked child (src/cmd.c lines 207-241): if stdout
was opened and resolves to the same path string, alias fderr to fdout;
otherwise open the stderr target under the io_flags > 0 mode test.  Open
or dup2 failure makes the child `return 1`. -/
def childErr (w : World) (s : SimpleCmd) (word : String) (outOpened : Bool)
    (t : ChildTrace) : ChildRes × ChildTrace :=
  match s.err with
  | none => childExec w word t
  | some error =>
    if outOpened && (s.out == some error) then
      if w.dup2Ok then childExec w word { t with errAliased := true }
      else (ChildRes.returned 1, { t with errAliased := true })
    else
      let mode := if s.io_flags > 0 then OpenMode.append else OpenMode.trunc
      if w.openOk error then
        if w.dup2Ok then childExec w word { t with opens := t.opens ++ [(error, mode)] }
        else (ChildRes.returned 1, { t with opens := t.opens ++ [(error, mode)] })
      else (ChildRes.returned 1, t)

/-- stdout step of the forked child (src/cmd.c lines 181-205): open the
stdout target under the io_flags > 0 mode test; open or dup2 failure
makes the child `return 1`. -/
def childOut (w : World) (s : SimpleCmd) (word : String) (t : ChildTrace) :
    ChildRes × ChildTrace :=
  match s.out with
  | none => childErr w s word false t
  | some output =>
    let mode := if s.io_flags > 0 then OpenMode.append else OpenMode.trunc
    if w.openOk output then
      if w.dup2Ok then childErr w s word true { t with opens := t.opens ++ [(output, mode)] }
      else (ChildRes.returned 1, { t with opens := t.opens ++ [(output, mode)] })
    else (ChildRes.returned 1, t)

/-- The code run inside the forked child of parse_simple (src/cmd.c
lines 154-253): stdin, stdout, stderr redirections in order, then
execvp.  Note that every open/dup2 failure is a C `return 1`, modelled
as `ChildRes.returned 1`, while the execvp paths end in `exit` /
program replacement, modelled as `ChildRes.exited`. -/
def childRun (w : World) (s : SimpleCmd) (word : String) : ChildRes × ChildTrace :=
  match s.inp with
  | none => childOut w s word ⟨[], false, none⟩
  | some input =>
    if w.openOk input then
      if w.dup2Ok then childOut w s word ⟨[(input, OpenMode.readOnly)], false, none⟩
      else (ChildRes.returned 1, ⟨[(input, OpenMode.readOnly)], false, none⟩)
    else (ChildRes.returned 1, ⟨[], false, none⟩)

/-- parse_simple (src/cmd.c lines 69-274) with its effect trace.  NULL
command: 1.  Verb "cd": truncate declared targets, then shell_cd on the
first parameter word.  Verb "exit"/"quit": shell_exit.  Verb containing
'=': strtok twice, setenv when both tokens exist, else 1, no fork.
Otherwise fork (failure: 1), run the child, and in the parent waitpid
(failure: 1) and map a normal exit to its low 8 bits.  When the child
executed a C `return` instead of exiting, the child process keeps
running the enclosing evaluation and the status the parent will
eventually observe is not determined by this function: the oracle field
escapedStatus stands for it. -/
def parse_simpleT (w : World) (s? : Option SimpleCmd) : Int × Trace :=
  match s? with
  | none => (1, emptyTrace)
  | some s =>
    let word := s.verb
    if word = "cd" then
      let r := cdOpenTargets w [s.inp, s.out, s.err]
      if r.2 then
        let cdres := shell_cd w s.params.head?
        (if cdres.1 then 0 else 1, ⟨r.1, true, some cdres.2, [], 0, none⟩)
      else
        (1, ⟨r.1, false, none, [], 0, none⟩)
    else if word = "exit" ∨ word = "quit" then
      (shell_exit, emptyTrace)
    else if containsEq word then
      match strtokens word with
      | var :: val :: _ =>
        (if w.setenvOk var val then 0 else -1, ⟨[], false, none, [(var, val)], 0, none⟩)
      | _ => (1, emptyTrace)
    else
      if !w.forkOk then (1, emptyTrace)
      else
        let c := childRun w s word
        let status : Int :=
          if !w.waitOk then 1
          else
            match c.1 with
            | ChildRes.exited code => code % 256
            | ChildRes.returned _ => w.escapedStatus
        (status, ⟨[], false, none, [], 1, some c⟩)

/-- Status component of parse_simple. -/
def parse_simple (w : World) (s? : Option SimpleCmd) : Int :=
  (parse_simpleT w s?).1

/-- run_in_parallel (src/cmd.c lines 279-323): fork left (failure:
false, right branch never started), fork right (failure: false), wait
left, wait right (failures: false), else true.  The two waitpid status
values are never inspected, so the children's exit statuses sL, sR are
unused, exactly as in the source. -/
structure ParRes where
  res : Bool
  startedLeft : Bool
  startedRight : Bool
deriving DecidableEq

def run_in_parallel (o : ParOracle) (sL sR : Int) : ParRes :=
  if !o.forkLeftOk then ⟨false, false, false⟩
  else if !o.forkRightOk then ⟨false, true, false⟩
  else if !o.waitLeftOk then ⟨false, true, true⟩
  else if !o.waitRightOk then ⟨false, true, true⟩
  else ⟨true, true, true⟩

/-- run_on_pipe (src/cmd.c lines 328-400): pipe, fork left, fork right,
then in the parent close both ends and waitpid twice into the same
`status` variable, so the left child's status is overwritten by the
right child's; finally `status != 0` fails the node.  A child exits via
exit(parse_command ...), so the parent observes its status modulo 256. -/
def run_on_pipe (o : PipeOracle) (sL sR : Int) : Bool :=
  if !o.pipeOk then false
  else if !o.forkLeftOk then false
  else if !o.forkRightOk then false
  else if !o.waitLeftOk then false
  else
    let status := sL % 256
    if !o.waitRightOk then false
    else
      let status := sR % 256
      if status ≠ 0 then false else true

/-- parse_command (src/cmd.c lines 405-464): NULL node: SHELL_EXIT;
OP_NONE: parse_simple; sequential: run both, keep only the second
status; parallel / pipe: success flag of the helper mapped to 0/1;
the two conditionals re-run on the first status; any other operator
tag: SHELL_EXIT.  For parallel and pipe the C children compute
parse_command in forked processes and exit with the result; the
evaluation is pure here, so those recursive values are passed to the
helpers directly (run_in_parallel ignores them; run_on_pipe reads the
right one, modulo 256, exactly as waitpid observes it). -/
def parse_command (w : World) : Command → Int
  | Command.null => SHELL_EXIT
  | Command.simple s => parse_simple w s
  | Command.comp op c1 c2 =>
    match op with
    | OpTag.sequential =>
      let r := parse_command w c1
      let r := parse_command w c2
      r
    | OpTag.parallel =>
      if (run_in_parallel w.par (parse_command w c1) (parse_command w c2)).res then 0 else 1
    | OpTag.condNZero =>
      let r := parse_command w c1
      if r ≠ 0 then parse_command w c2 else r
    | OpTag.condZero =>
      let r := parse_command w c1
      if r = 0 then parse_command w c2 else r
    | OpTag.pipe =>
      if run_on_pipe w.po (parse_command w c1) (parse_command w c2) then 0 else 1
    | OpTag.unknown _ => SHELL_EXIT

/-- Oracle where every OS interaction succeeds. -/
def parOK : ParOracle := ⟨true, true, true, true⟩

def poOK : PipeOracle := ⟨true, true, true, true, true⟩

def wOK : World :=
  ⟨fun _ => true, true, true, true, fun _ => true, fun _ => 0,
   fun _ _ => true, fun p => some p, true, "/root", 0, parOK, poOK⟩

/-- World where every file open fails. -/
def wNoOpen : World := { wOK with openOk := fun _ => false }

/-- World where execvp fails (program not found / not executable). -/
def wNoExec : World := { wOK with execOk := fun _ => false }

/-- World where every chdir call fails. -/
def wNoChdir : World := { wOK with chdirDest := fun _ => none }

/-- World where the first fork of run_in_parallel fails. -/
def wParForkL : World := { wOK with par := ⟨false, true, true, true⟩ }

/-- Simple command `exit`. -/
def exitCmdC : Command := Command.simple (some ⟨"exit", [], none, none, none, 0⟩)

/-- Simple command that is the well-formed assignment X=1. -/
def okCmdC : Command := Command.simple (some ⟨"X=1", [], none, none, none, 0⟩)

/-- Simple command whose verb is the malformed assignment `a=` (its
parse_simple status is 1). -/
def failCmdC : Command := Command.simple (some ⟨"a=", [], none, none, none, 0⟩)

/-- External command `ls` with stdin redirected from /nonexistent. -/
def lsCmd : SimpleCmd := ⟨"ls", [], some "/nonexistent", none, none, 0⟩

/-- External command with stdout → "o", stderr → "e" and io_flags set to
IO_ERR_APPEND only (append requested for stderr, not for stdout). -/
def flagCmd : SimpleCmd := ⟨"prog", [], none, some "o", some "e", IO_ERR_APPEND⟩

/-- External command redirecting both stdout and stderr to "f". -/
def aliasCmd : SimpleCmd := ⟨"prog", [], none, some "f", some "f", 0⟩

/-- External command with stdout → "x" and stderr → "y". -/
def twoFileCmd : SimpleCmd := ⟨"prog", [], none, some "x", some "y", 0⟩

/-- run_on_pipe succeeds exactly when the pipe, both forks and both
waits succeed and the RIGHT child's observed status is zero; the left
child's status is overwritten by the second waitpid and plays no role. -/
theorem run_on_pipe_true_iff (o : PipeOracle) (sL sR : Int) :
    run_on_pipe o sL sR = true ↔
      (o.pipeOk = true ∧ o.forkLeftOk = true ∧ o.forkRightOk = true ∧
       o.waitLeftOk = true ∧ o.waitRightOk = true ∧ sR % 256 = 0) := by
  rcases o with ⟨p, fL, fR, wL, wR⟩
  cases p <;> cases fL <;> cases fR <;> cases wL <;> cases wR <;>
    by_cases h : sR % 256 = 0 <;> simp [run_on_pipe, h]

/-- run_in_parallel succeeds exactly when both forks and both waits
succeed; the children's statuses are never inspected. -/
theorem run_in_parallel_res_iff (o : ParOracle) (sL sR : Int) :
    (run_in_parallel o sL sR).res = true ↔
      (o.forkLeftOk = true ∧ o.forkRightOk = true ∧
       o.waitLeftOk = true ∧ o.waitRightOk = true) := by
  rcases o with ⟨fL, fR, wL, wR⟩
  cases fL <;> cases fR <;> cases wL <;> cases wR <;> simp [run_in_parallel]

/-- When the first fork of run_in_parallel fails, the function returns
failure without starting the right branch. -/
theorem run_in_parallel_forkLeft_false (o : ParOracle) (a b : Int)
    (h : o.forkLeftOk = false) :
    (run_in_parallel o a b).startedRight = false ∧
    (run_in_parallel o a b).res = false := by
  simp [run_in_parallel, h]

/-- Claim C9 (confirmed): parse_command returns the terminate sentinel
SHELL_EXIT both on a NULL command node and on a node whose operator tag
is none of the six known kinds (the switch's default arm). -/
theorem C9_null_or_unknown (w : World) (n : Nat) (c1 c2 : Command) :
    parse_command w Command.null = SHELL_EXIT ∧
    parse_command w (Command.comp (OpTag.unknown n) c1 c2) = SHELL_EXIT :=
  ⟨rfl, rfl⟩

/-- Claim C1, counterexample: a pipe whose left branch exits with status
1 and whose right branch exits with status 0 evaluates to 0 (success),
so a nonzero exit status of the left branch does NOT make the Pipe node
nonzero, contrary to the claim. -/
theorem C1_counterexample :
    parse_command wOK failCmdC = 1 ∧
    parse_command wOK okCmdC = 0 ∧
    parse_command wOK (Command.comp OpTag.pipe failCmdC okCmdC) = 0 := by
  refine ⟨rfl, rfl, rfl⟩

/-- Claim C2, counterexample: the left operand of a Sequential node
evaluates to the terminate sentinel SHELL_EXIT, yet the Sequential node
itself evaluates to 0 (the right operand's status): the sentinel is
discarded, not propagated. -/
theorem C2_counterexample :
    parse_command wOK exitCmdC = SHELL_EXIT ∧
    parse_command wOK (Command.comp OpTag.sequential exitCmdC okCmdC) = 0 ∧
    (0 : Int) ≠ SHELL_EXIT := by
  refine ⟨rfl, rfl, by decide⟩

/-- Claim C3 (code bug): when the stdin redirection target cannot be
opened, the forked child of parse_simple evaluates to `returned 1` — a
C `return` that falls back into parse_command's recursion inside the
child process — instead of terminating.  By contrast the execvp-failure
path does terminate the child, via exit(-1), observed as 255 ≠ 0. -/
theorem C3_child_open_failure :
    (childRun wNoOpen lsCmd "ls").1 = ChildRes.returned 1 ∧
    (∀ c : Int, (childRun wNoOpen lsCmd "ls").1 ≠ ChildRes.exited c) ∧
    (childRun wNoExec ⟨"noprog", [], none, none, none, 0⟩ "noprog").1 =
      ChildRes.exited (-1) ∧
    ((-1 : Int)) % 256 = 255 := by
  refine ⟨rfl, ?_, rfl, by decide⟩
  intro c h
  simp [childRun, childOut, childErr, childExec, wNoOpen, wOK, lsCmd] at h

/-- Claim C5, counterexample: with io_flags = IO_ERR_APPEND (append
requested for stderr only), the child opens the stdout target in append
mode as well, although stdout's own append flag is off: the two
streams' open modes are not independent. -/
theorem C5_counterexample :
    (childRun wOK flagCmd flagCmd.verb).2.opens =
      [("o", OpenMode.append), ("e", OpenMode.append)] ∧
    outAppend flagCmd = false ∧ errAppend flagCmd = true := by
  refine ⟨rfl, rfl, rfl⟩

/-- Claim C10, counterexample: the verb `=a=b` is a malformed
assignment (the name before the first '=' is empty), yet parse_simple
returns 0 and calls setenv("a", "b"), mutating the environment, because
strtok skips the leading '=' delimiter. -/
theorem C10_counterexample :
    ("=a=b".toList.takeWhile fun c => c != '=') = [] ∧
    (parse_simpleT wOK (some ⟨"=a=b", [], none, none, none, 0⟩)).1 = 0 ∧
    (parse_simpleT wOK (some ⟨"=a=b", [], none, none, none, 0⟩)).2.envSets =
      [("a", "b")] := by
  refine ⟨rfl, rfl, rfl⟩

/-- Claim C1, amended (corrected): a Pipe node evaluates to 0 exactly
when the pipe call, both forks and both waits succeed AND the right
branch's observed exit status (its parse_command result modulo 256, as
seen through exit/waitpid) is zero; the left branch's status is
overwritten by the second waitpid and never influences the result, as
witnessed by the invariance under replacing the left subtree. -/
theorem C1_pipe_status (w : World) (l r l2 : Command) :
    (parse_command w (Command.comp OpTag.pipe l r) = 0 ↔
      (w.po.pipeOk = true ∧ w.po.forkLeftOk = true ∧ w.po.forkRightOk = true ∧
       w.po.waitLeftOk = true ∧ w.po.waitRightOk = true ∧
       parse_command w r % 256 = 0)) ∧
    parse_command w (Command.comp OpTag.pipe l r) =
      parse_command w (Command.comp OpTag.pipe l2 r) := by
  have hiff := run_on_pipe_true_iff w.po (parse_command w l) (parse_command w r)
  have hiff2 := run_on_pipe_true_iff w.po (parse_command w l2) (parse_command w r)
  constructor
  · rw [← hiff]
    cases hb : run_on_pipe w.po (parse_command w l) (parse_command w r) <;>
      simp [parse_command, hb]
  · have heq : run_on_pipe w.po (parse_command w l) (parse_command w r) =
        run_on_pipe w.po (parse_command w l2) (parse_command w r) := by
      cases hb : run_on_pipe w.po (parse_command w l) (parse_command w r)
      · cases hb2 : run_on_pipe w.po (parse_command w l2) (parse_command w r)
        · rfl
        · rw [← hb]
          exact hiff.mpr (hiff2.mp hb2)
      · exact (hiff2.mpr (hiff.mp hb)).symm
    simp only [parse_command, heq]

/-- Claim C2, amended (corrected): the terminate sentinel propagates
unchanged out of the evaluated RIGHT operand of Sequential and of
either Conditional, and out of the LEFT operand of ConditionalIfZero
(where, being nonzero, it also skips the right operand); but a sentinel
from the left operand of Sequential is discarded (the node returns the
right operand's status), and a sentinel from the left operand of
ConditionalIfNonZero triggers the right operand, whose status is
returned instead. -/
theorem C2_sentinel (w : World) (c1 c2 : Command) :
    parse_command w (Command.comp OpTag.sequential c1 c2) = parse_command w c2 ∧
    (parse_command w c1 = SHELL_EXIT →
      parse_command w (Command.comp OpTag.condZero c1 c2) = SHELL_EXIT) ∧
    (parse_command w c1 = SHELL_EXIT →
      parse_command w (Command.comp OpTag.condNZero c1 c2) = parse_command w c2) ∧
    (parse_command w c1 ≠ 0 → parse_command w c2 = SHELL_EXIT →
      parse_command w (Command.comp OpTag.condNZero c1 c2) = SHELL_EXIT) ∧
    (parse_command w c1 = 0 → parse_command w c2 = SHELL_EXIT →
      parse_command w (Command.comp OpTag.condZero c1 c2) = SHELL_EXIT) := by
  refine ⟨rfl, ?_, ?_, ?_, ?_⟩
  · intro h
    have hse : SHELL_EXIT ≠ (0 : Int) := by decide
    simp [parse_command, h, hse]
  · intro h
    have hz : parse_command w c1 ≠ 0 := by rw [h]; decide
    simp [parse_command, hz]
  · intro h1 h2
    simp [parse_command, h1, h2]
  · intro h1 h2
    simp [parse_command, h1, h2]

/-- Witness for C2_sentinel: concrete trees discharging each
hypothesis; `exit` on the left of ConditionalIfZero makes the node
return the sentinel, and `exit` on the right of Sequential propagates. -/
theorem C2_sentinel_witness :
    parse_command wOK (Command.comp OpTag.condZero exitCmdC okCmdC) = SHELL_EXIT ∧
    parse_command wOK (Command.comp OpTag.sequential okCmdC exitCmdC) = SHELL_EXIT ∧
    parse_command wOK (Command.comp OpTag.condNZero failCmdC exitCmdC) = SHELL_EXIT :=
  ⟨(C2_sentinel wOK exitCmdC okCmdC).2.1 rfl,
   (C2_sentinel wOK okCmdC exitCmdC).1.trans rfl,
   (C2_sentinel wOK failCmdC exitCmdC).2.2.2.1 (by decide) rfl⟩

/-- Claim C4 (confirmed): a Parallel node evaluates to 0 exactly when
both forks and both waitpid calls succeed; the result is invariant
under replacing both subtrees (it never depends on either child's exit
code); and when the first fork fails, the right branch is never started
and the helper reports failure. -/
theorem C4_parallel (w : World) (c1 c2 d1 d2 : Command) :
    (parse_command w (Command.comp OpTag.parallel c1 c2) = 0 ↔
      (w.par.forkLeftOk = true ∧ w.par.forkRightOk = true ∧
       w.par.waitLeftOk = true ∧ w.par.waitRightOk = true)) ∧
    parse_command w (Command.comp OpTag.parallel c1 c2) =
      parse_command w (Command.comp OpTag.parallel d1 d2) ∧
    (w.par.forkLeftOk = false →
      (run_in_parallel w.par (parse_command w c1) (parse_command w c2)).startedRight
        = false ∧
      (run_in_parallel w.par (parse_command w c1) (parse_command w c2)).res
        = false) := by
  refine ⟨?_, ?_, ?_⟩
  · rw [← run_in_parallel_res_iff w.par (parse_command w c1) (parse_command w c2)]
    cases hb : (run_in_parallel w.par (parse_command w c1) (parse_command w c2)).res <;>
      simp [parse_command, hb]
  · have heq : run_in_parallel w.par (parse_command w c1) (parse_command w c2) =
        run_in_parallel w.par (parse_command w d1) (parse_command w d2) := rfl
    simp only [parse_command, heq]
  · intro h
    exact run_in_parallel_forkLeft_false w.par _ _ h

/-- Witness for C4_parallel: in a world where the first fork fails, the
Parallel node returns 1 and the right branch is never started. -/
theorem C4_parallel_witness :
    (parse_command wParForkL (Command.comp OpTag.parallel okCmdC okCmdC) = 0 ↔
      (wParForkL.par.forkLeftOk = true ∧ wParForkL.par.forkRightOk = true ∧
       wParForkL.par.waitLeftOk = true ∧ wParForkL.par.waitRightOk = true)) ∧
    (run_in_parallel wParForkL.par (parse_command wParForkL okCmdC)
        (parse_command wParForkL okCmdC)).startedRight = false :=
  ⟨(C4_parallel wParForkL okCmdC okCmdC okCmdC okCmdC).1,
   ((C4_parallel wParForkL okCmdC okCmdC okCmdC okCmdC).2.2 rfl).1⟩

/-- Opens recorded by the stdin step of the forked child. -/
def inOpens (s : SimpleCmd) : List (String × OpenMode) :=
  match s.inp with
  | some i => [(i, OpenMode.readOnly)]
  | none => []

/-- The mode the child uses for a write-side open: the single shared
io_flags > 0 test of src/cmd.c lines 184-187 and 214-217. -/
def sharedMode (s : SimpleCmd) : OpenMode :=
  if s.io_flags > 0 then OpenMode.append else OpenMode.trunc

/-- When both stdout and stderr targets resolve to the same string, the
child aliases stderr to the open stdout descriptor and performs no
second write-side open of that path. -/
theorem childRun_opens_alias (w : World) (s : SimpleCmd) (o : String)
    (hdup : w.dup2Ok = true) (hopen : ∀ p, w.openOk p = true)
    (hout : s.out = some o) (herr : s.err = some o) :
    (childRun w s s.verb).2.errAliased = true ∧
    (childRun w s s.verb).2.opens = inOpens s ++ [(o, sharedMode s)] := by
  have halias : (s.out == some o) = true := by rw [hout]; simp
  cases hinp : s.inp with
  | none =>
    cases hex : w.execOk s.verb <;> constructor <;>
      simp [childRun, childOut, childErr, childExec, inOpens, sharedMode,
        hinp, hout, herr, hopen, hdup, halias, hex]
  | some i =>
    cases hex : w.execOk s.verb <;> constructor <;>
      simp [childRun, childOut, childErr, childExec, inOpens, sharedMode,
        hinp, hout, herr, hopen, hdup, halias, hex]

/-- When the stdout and stderr targets resolve to different strings, the
child opens the stderr target as its own descriptor, both write-side
opens using the shared io_flags > 0 mode test. -/
theorem childRun_opens_separate (w : World) (s : SimpleCmd) (o e : String)
    (hdup : w.dup2Ok = true) (hopen : ∀ p, w.openOk p = true)
    (hout : s.out = some o) (herr : s.err = some e) (hne : e ≠ o) :
    (childRun w s s.verb).2.errAliased = false ∧
    (childRun w s s.verb).2.opens =
      inOpens s ++ [(o, sharedMode s), (e, sharedMode s)] := by
  have hne2 : (s.out == some e) = false := by
    rw [hout]
    simp only [beq_eq_false_iff_ne, ne_eq, Option.some.injEq]
    intro hcontra
    exact hne hcontra.symm
  have hne3 : o ≠ e := fun hc => hne hc.symm
  cases hinp : s.inp with
  | none =>
    cases hex : w.execOk s.verb <;> constructor <;>
      simp [childRun, childOut, childErr, childExec, inOpens, sharedMode,
        hinp, hout, herr, hopen, hdup, hne2, hne3, hex]
  | some i =>
    cases hex : w.execOk s.verb <;> constructor <;>
      simp [childRun, childOut, childErr, childExec, inOpens, sharedMode,
        hinp, hout, herr, hopen, hdup, hne2, hne3, hex]

/-- Claim C5, amended (corrected): the append-versus-truncate mode of
the stdout target and that of the stderr target are both governed by
the one shared test io_flags > 0 (sharedMode); they are never
independent — any positive flag value selects append for both streams,
zero selects truncate for both. -/
theorem C5_shared_mode (w : World) (s : SimpleCmd) (o e : String)
    (hdup : w.dup2Ok = true) (hopen : ∀ p, w.openOk p = true)
    (hout : s.out = some o) (herr : s.err = some e) (hne : e ≠ o) :
    (childRun w s s.verb).2.opens =
      inOpens s ++ [(o, sharedMode s), (e, sharedMode s)] ∧
    sharedMode s = (if s.io_flags > 0 then OpenMode.append else OpenMode.trunc) :=
  ⟨(childRun_opens_separate w s o e hdup hopen hout herr hne).2, rfl⟩

/-- Witness for C5_shared_mode at a concrete command with stdout → "x",
stderr → "y" and io_flags = 0: both opens truncate. -/
theorem C5_shared_mode_witness :
    (childRun wOK twoFileCmd twoFileCmd.verb).2.opens =
      [("x", OpenMode.trunc), ("y", OpenMode.trunc)] :=
  (C5_shared_mode wOK twoFileCmd "x" "y" rfl (fun p => rfl) rfl rfl
    (by decide)).1

/-- Claim C6 (confirmed): when the stderr target resolves to the same
path string as the already-opened stdout target, stderr is aliased to
that open descriptor and the path receives exactly one write-side open
(so it is never truncated twice); when the two paths differ, stderr is
opened as its own independent descriptor. -/
theorem C6_err_alias (w : World) (s : SimpleCmd) (o : String)
    (hdup : w.dup2Ok = true) (hopen : ∀ p, w.openOk p = true)
    (hout : s.out = some o) :
    (s.err = some o →
      (childRun w s s.verb).2.errAliased = true ∧
      (childRun w s s.verb).2.opens = inOpens s ++ [(o, sharedMode s)]) ∧
    (∀ e, s.err = some e → e ≠ o →
      (childRun w s s.verb).2.errAliased = false ∧
      (childRun w s s.verb).2.opens =
        inOpens s ++ [(o, sharedMode s), (e, sharedMode s)]) := by
  constructor
  · intro herr
    exact childRun_opens_alias w s o hdup hopen hout herr
  · intro e herr hne
    exact childRun_opens_separate w s o e hdup hopen hout herr hne

/-- Witness for C6_err_alias: a command redirecting both streams to "f"
aliases stderr and opens "f" exactly once, in truncate mode. -/
theorem C6_err_alias_witness :
    (childRun wOK aliasCmd aliasCmd.verb).2.errAliased = true ∧
    (childRun wOK aliasCmd aliasCmd.verb).2.opens = [("f", OpenMode.trunc)] :=
  (C6_err_alias wOK aliasCmd "f" rfl (fun p => rfl) rfl).1 rfl

/-- Claim C7 (confirmed): cd with no argument is a no-op returning
success; cd with an argument whose direct chdir fails and — the path
being relative — whose retry on the path joined to the current working
directory also fails, returns status 1 (not the terminate sentinel),
leaves the working directory unchanged, and creates no child process
(the trace shows zero forks). -/
theorem C7_cd_builtin (w : World) (p : String)
    (h1 : w.chdirDest p = none)
    (hrel : isRelative p = true)
    (hcwd : w.getcwdOk = true)
    (h2 : w.chdirDest (w.cwd ++ "/" ++ p) = none) :
    parse_simpleT w (some ⟨"cd", [], none, none, none, 0⟩) =
      (0, ⟨[], true, some w.cwd, [], 0, none⟩) ∧
    shell_cd w (some p) = (false, w.cwd) ∧
    parse_simpleT w (some ⟨"cd", [p], none, none, none, 0⟩) =
      (1, ⟨[], true, some w.cwd, [], 0, none⟩) ∧
    (parse_simpleT w (some ⟨"cd", [p], none, none, none, 0⟩)).2.forks = 0 ∧
    (1 : Int) ≠ SHELL_EXIT := by
  have hcd : shell_cd w (some p) = (false, w.cwd) := by
    simp [shell_cd, h1, hcwd, h2]
  have hmain : parse_simpleT w (some ⟨"cd", [p], none, none, none, 0⟩) =
      (1, ⟨[], true, some w.cwd, [], 0, none⟩) := by
    simp [parse_simpleT, cdOpenTargets, hcd]
  refine ⟨rfl, hcd, hmain, ?_, by decide⟩
  rw [hmain]

/-- Witness for C7_cd_builtin: in a world where every chdir fails, cd
into the relative path "sub" returns 1, no fork, cwd unchanged. -/
theorem C7_cd_builtin_witness :
    parse_simpleT wNoChdir (some ⟨"cd", ["sub"], none, none, none, 0⟩) =
      (1, ⟨[], true, some "/root", [], 0, none⟩) ∧
    shell_cd wNoChdir (some "sub") = (false, "/root") :=
  ⟨(C7_cd_builtin wNoChdir "sub" rfl rfl rfl rfl).2.2.1,
   (C7_cd_builtin wNoChdir "sub" rfl rfl rfl rfl).2.1⟩

/-- Claim C8 (confirmed): a cd command carrying declared redirection
targets creates-and-truncates each of them, in order stdin, stdout,
stderr — the stdin target included — before attempting the directory
change; if opening any of the three fails, the command returns status 1
and shell_cd is never called (cdCalled = false in the trace). -/
theorem C8_cd_redirects (w : World) (f1 f2 f3 p : String) :
    (w.openOk f1 = true → w.openOk f2 = true → w.openOk f3 = true →
      parse_simpleT w (some ⟨"cd", [p], some f1, some f2, some f3, 0⟩) =
        ((if (shell_cd w (some p)).1 then 0 else 1),
         ⟨[f1, f2, f3], true, some (shell_cd w (some p)).2, [], 0, none⟩)) ∧
    (w.openOk f1 = false →
      parse_simpleT w (some ⟨"cd", [p], some f1, some f2, some f3, 0⟩) =
        (1, ⟨[], false, none, [], 0, none⟩)) ∧
    (w.openOk f1 = true → w.openOk f2 = false →
      parse_simpleT w (some ⟨"cd", [p], some f1, some f2, some f3, 0⟩) =
        (1, ⟨[f1], false, none, [], 0, none⟩)) ∧
    (w.openOk f1 = true → w.openOk f2 = true → w.openOk f3 = false →
      parse_simpleT w (some ⟨"cd", [p], some f1, some f2, some f3, 0⟩) =
        (1, ⟨[f1, f2], false, none, [], 0, none⟩)) := by
  refine ⟨?_, ?_, ?_, ?_⟩
  · intro h1 h2 h3
    simp [parse_simpleT, cdOpenTargets, h1, h2, h3]
  · intro h1
    simp [parse_simpleT, cdOpenTargets, h1]
  · intro h1 h2
    simp [parse_simpleT, cdOpenTargets, h1, h2]
  · intro h1 h2 h3
    simp [parse_simpleT, cdOpenTargets, h1, h2, h3]

/-- Witness for C8_cd_redirects: with all opens succeeding, cd with
stdin → "i", stdout → "o", stderr → "e" truncates all three files and
then changes directory; with all opens failing, it returns 1 having
truncated nothing and without calling shell_cd. -/
theorem C8_cd_redirects_witness :
    parse_simpleT wOK (some ⟨"cd", ["d"], some "i", some "o", some "e", 0⟩) =
      (0, ⟨["i", "o", "e"], true, some "d", [], 0, none⟩) ∧
    parse_simpleT wNoOpen (some ⟨"cd", ["d"], some "i", some "o", some "e", 0⟩) =
      (1, ⟨[], false, none, [], 0, none⟩) :=
  ⟨(C8_cd_redirects wOK "i" "o" "e" "d").1 rfl rfl rfl,
   (C8_cd_redirects wNoOpen "i" "o" "e" "d").2.1 rfl⟩

/-- Claim C10, amended (corrected): a simple command whose verb contains
'=' is handled entirely in the current process — the trace records no
fork and no child, hence no external execution — even when the
assignment is malformed; and whenever strtok produces fewer than two
nonempty '='-separated tokens from the verb, the status is 1 and no
setenv call is made.  (A verb with an empty name but two nonempty
tokens, such as =a=b, is nevertheless treated as a successful
assignment: see the counterexample.) -/
theorem C10_assignment (w : World) (s : SimpleCmd)
    (h : containsEq s.verb = true) :
    (parse_simpleT w (some s)).2.forks = 0 ∧
    (parse_simpleT w (some s)).2.child = none ∧
    ((strtokens s.verb).length < 2 →
      (parse_simpleT w (some s)).1 = 1 ∧
      (parse_simpleT w (some s)).2.envSets = []) := by
  have hcd : s.verb ≠ "cd" := by
    intro hc; rw [hc] at h; exact absurd h (by decide)
  have hexit : ¬(s.verb = "exit" ∨ s.verb = "quit") := by
    intro hc; rcases hc with hc | hc <;> rw [hc] at h <;> exact absurd h (by decide)
  have hsplit : parse_simpleT w (some s) =
      (match strtokens s.verb with
       | var :: val :: _ =>
         (if w.setenvOk var val then 0 else -1, ⟨[], false, none, [(var, val)], 0, none⟩)
       | _ => (1, emptyTrace)) := by
    simp [parse_simpleT, hcd, hexit, h]
  rw [hsplit]
  cases htk : strtokens s.verb with
  | nil => simp [emptyTrace]
  | cons a tl =>
    cases tl with
    | nil => simp [emptyTrace]
    | cons b tl2 =>
      refine ⟨rfl, rfl, ?_⟩
      intro hlen
      simp at hlen
      omega

/-- Witness for C10_assignment: the malformed assignment `a=` forks
nothing, returns 1 and mutates no environment entry. -/
theorem C10_assignment_witness :
    (parse_simpleT wOK (some ⟨"a=", [], none, none, none, 0⟩)).2.forks = 0 ∧
    (parse_simpleT wOK (some ⟨"a=", [], none, none, none, 0⟩)).1 = 1 ∧
    (parse_simpleT wOK (some ⟨"a=", [], none, none, none, 0⟩)).2.envSets = [] :=
  ⟨(C10_assignment wOK ⟨"a=", [], none, none, none, 0⟩ rfl).1,
   ((C10_assignment wOK ⟨"a=", [], none, none, none, 0⟩ rfl).2.2 (by decide)).1,
   ((C10_assignment wOK ⟨"a=", [], none, none, none, 0⟩ rfl).2.2 (by decide)).2⟩

end MiniShell
